import Mathlib

/-!
Shallow embedding of `src/git/src/mcp_server_git/server.py` (mcp-server-git),
together with theorems about its path-security boundary, per-operation
argument construction and repository resolution.

Modelling conventions:
* A canonical (resolved) filesystem path is its list of segments; resolution
  (`pathlib.Path.resolve`, which may raise `OSError`/`RuntimeError`) is an
  environment function returning `Option`.
* The GitPython library is an oracle (`GitOracle`); every interaction with it
  that has an external effect is recorded in a trace of `GitCall` values, so
  that "no command was executed" is the statement that the trace is empty.
* Python truthiness of optional strings and lists (`if base:`, `if paths:`)
  is modelled explicitly (`strTruthy`, `listTruthy`): `None`, `""` and `[]`
  are falsy.
* Python quote characters inside message strings are written `\x27`.
-/

namespace McpServerGit

/-- Canonical (resolved) absolute filesystem path, as its list of path
segments below the filesystem root. -/
abbrev CanonPath := List String

/-- Filesystem environment. `resolve` models `pathlib.Path.resolve`;
`none` models an `OSError` or `RuntimeError` raised during resolution. -/
structure FS where
  resolve : String → Option CanonPath

/-- The two distinct `ValueError`s raised by `validate_repo_path`
(distinguished in the source by their message text; named here after the
spec taxonomy). -/
inductive PathGuardError where
  | invalidPath (repo_path : String)
  | pathOutsideAllowedRoot (repo_path : String) (allowed_repository : String)
deriving Repr, DecidableEq

/-- `pathlib.PurePath.relative_to` on canonical absolute paths succeeds
exactly when the base path's segments are a prefix of the candidate's
segments (segment-boundary containment, not raw string prefix). -/
def relativeToOk (p base : CanonPath) : Bool := base.isPrefixOf p

/-- Embedding of `validate_repo_path` (server.py 301-319): no restriction
when no allowed repository is configured; otherwise resolve both paths
(failure of either raises the invalid-path error) and require the resolved
candidate to be the resolved allowed root or a descendant of it. -/
def validate_repo_path (fs : FS) (repo_path : String)
    (allowed_repository : Option String) : Except PathGuardError Unit :=
  match allowed_repository with
  | none => .ok ()
  | some allowed =>
    match fs.resolve repo_path, fs.resolve allowed with
    | some resolved_repo, some resolved_allowed =>
      if relativeToOk resolved_repo resolved_allowed then .ok ()
      else .error (.pathOutsideAllowedRoot repo_path allowed)
    | _, _ => .error (.invalidPath repo_path)

/-- Example filesystem used by witnesses: a small resolution table in which
every listed path is already canonical. -/
def fsEx : FS where
  resolve s :=
    if s = "/allowed" then some ["allowed"]
    else if s = "/allowed-other" then some ["allowed-other"]
    else if s = "/allowed/sub" then some ["allowed", "sub"]
    else if s = "/repos/proj" then some ["repos", "proj"]
    else if s = "/etc" then some ["etc"]
    else none

/-- Python truthiness of an optional string: `None` and `""` are falsy. -/
def strTruthy : Option String → Bool
  | none => false
  | some s => !(s == "")

/-- Python truthiness of an optional list: `None` and `[]` are falsy. -/
def listTruthy : Option (List String) → Bool
  | none => false
  | some l => !(l == [])

/-- Python `s.startswith("-")`: whether the first character is a dash. -/
def startsWithDash (s : String) : Bool :=
  match s.data with
  | [] => false
  | c :: _ => c == '-'

/-- `git.Actor` (only the fields the server constructs). -/
structure Actor where
  name : String
  email : String
deriving Repr, DecidableEq

/-- Which pair of trees `git_show` asks GitPython to diff. -/
inductive DiffSpec where
  | parentAgainstCommit (parent_hexsha commit_hexsha : String)
  | commitAgainstNullTree (commit_hexsha : String)
deriving Repr, DecidableEq

/-- The keyword arguments `git_log` hands to `repo.iter_commits`; a field is
`none` when the corresponding key is absent from the kwargs dict. -/
structure LogKwargs where
  max_count : Int
  since : Option String := none
  until' : Option String := none
  rev : Option String := none
  paths : Option (List String) := none
deriving Repr, DecidableEq

/-- A commit object as the server reads it from GitPython. String fields hold
the library's rendering of the corresponding attribute (`author` and
`message` as their `repr`, the datetime in both `str` and `repr` form). -/
structure CommitInfo where
  hexsha : String
  author : String
  authored_datetime : String
  authored_datetime_repr : String
  message : String
  parents : List String
deriving Repr, DecidableEq

/-- One diff entry produced by GitPython's `diff(..., create_patch=True)`;
`diff` holds the decoded patch text (the source decodes `bytes` to text,
so a single text field covers both branches). -/
structure DiffEntry where
  a_path : Option String
  b_path : Option String
  diff : Option String
deriving Repr, DecidableEq

/-- An externally effectful interaction with the GitPython library or the
underlying git tool. `git sub args` is a command-line invocation
`repo.git.<sub>(*args)`; the others are library calls. -/
inductive GitCall where
  | revParse (ref : String)
  | git (subcmd : String) (args : List String)
  | indexCommit (message : String) (author : Option Actor)
  | indexReset (paths : Option (List String))
  | iterCommits (kwargs : LogKwargs)
  | createHead (branch_name : String) (base : String)
  | commitLookup (revision : String)
  | diffCommits (spec : DiffSpec)
deriving Repr, DecidableEq

/-- Exceptions the embedded operations can raise. `badName` is GitPython's
`BadName` with its message; `refNotFound` models the lookup failure of
`repo.references[name]`. -/
inductive GitError where
  | badName (msg : String)
  | refNotFound (name : String)
deriving Repr, DecidableEq

/-- Oracle for the GitPython library: results of ref resolution, command
output, commit lookup and the other library queries the server makes. -/
structure GitOracle where
  isGitRepo : String → Bool
  revParseOk : String → Bool
  gitOut : String → List String → String
  commitHexsha : String → Option Actor → String
  commitOf : String → Option CommitInfo
  diffEntries : DiffSpec → List DiffEntry
  iterCommits : LogKwargs → List CommitInfo
  references : String → Option String
  activeBranch : String

/-- Default number of context lines to show in diff output (server.py 20). -/
def DEFAULT_CONTEXT_LINES : Int := 3

/-- Embedding of `git_status` (server.py 137-141). -/
def git_status (o : GitOracle) (paths : Option (List String) := none) :
    String × List GitCall :=
  let args : List String := []
  let args := if listTruthy paths then args ++ ["--"] ++ paths.getD [] else args
  (o.gitOut "status" args, [.git "status" args])

/-- Embedding of `git_diff_unstaged` (server.py 143-149). -/
def git_diff_unstaged (o : GitOracle)
    (context_lines : Int := DEFAULT_CONTEXT_LINES)
    (ignore_whitespace : Bool := false)
    (paths : Option (List String) := none) : String × List GitCall :=
  let args := ["--unified=" ++ toString context_lines]
  let args := if ignore_whitespace then args ++ ["-w"] else args
  let args := if listTruthy paths then args ++ ["--"] ++ paths.getD [] else args
  (o.gitOut "diff" args, [.git "diff" args])

/-- Embedding of `git_diff_staged` (server.py 151-157). -/
def git_diff_staged (o : GitOracle)
    (context_lines : Int := DEFAULT_CONTEXT_LINES)
    (ignore_whitespace : Bool := false)
    (paths : Option (List String) := none) : String × List GitCall :=
  let args := ["--unified=" ++ toString context_lines, "--cached"]
  let args := if ignore_whitespace then args ++ ["-w"] else args
  let args := if listTruthy paths then args ++ ["--"] ++ paths.getD [] else args
  (o.gitOut "diff" args, [.git "diff" args])

/-- Embedding of `git_diff` (server.py 159-189): reject `-`-prefixed target
and base up front, then validate each against the ref namespace with
`rev_parse`, then build the argument list (context option, optional `-w`,
revision selection, optional `--`-separated path filter). -/
def git_diff (o : GitOracle) (target : String) (base : Option String := none)
    (merge_base : Bool := false) (context_lines : Int := DEFAULT_CONTEXT_LINES)
    (ignore_whitespace : Bool := false)
    (paths : Option (List String) := none) :
    Except GitError String × List GitCall :=
  if startsWithDash target then
    (.error (.badName ("Invalid target: \x27" ++ target
      ++ "\x27 - cannot start with \x27-\x27")), [])
  else if strTruthy base && startsWithDash (base.getD "") then
    (.error (.badName ("Invalid base: \x27" ++ base.getD ""
      ++ "\x27 - cannot start with \x27-\x27")), [])
  else if !o.revParseOk target then
    (.error (.badName target), [.revParse target])
  else if strTruthy base && !o.revParseOk (base.getD "") then
    (.error (.badName (base.getD "")), [.revParse target, .revParse (base.getD "")])
  else
    let args := ["--unified=" ++ toString context_lines]
    let args := if ignore_whitespace then args ++ ["-w"] else args
    let args :=
      if strTruthy base then
        if merge_base then args ++ [base.getD "" ++ "..." ++ target]
        else args ++ [base.getD "", target]
      else args ++ [target]
    let args := if listTruthy paths then args ++ ["--"] ++ paths.getD [] else args
    (.ok (o.gitOut "diff" args),
      [GitCall.revParse target]
        ++ (if strTruthy base then [GitCall.revParse (base.getD "")] else [])
        ++ [GitCall.git "diff" args])

/-- Embedding of `git_commit` (server.py 191-198): an `Actor` override is
built only when both author fields are truthy (present and non-empty). -/
def git_commit (o : GitOracle) (message : String)
    (author_name : Option String := none)
    (author_email : Option String := none) : String × List GitCall :=
  let author : Option Actor :=
    if strTruthy author_name && strTruthy author_email then
      some ⟨author_name.getD "", author_email.getD ""⟩
    else none
  ("Changes committed successfully with hash " ++ o.commitHexsha message author,
    [.indexCommit message author])

/-- Embedding of `git_add` (server.py 200-206): the exact list `["."]` is
passed bare; every other list goes after the `--` separator. -/
def git_add (files : List String) : String × List GitCall :=
  if files == ["."] then
    ("Files staged successfully", [.git "add" ["."]])
  else
    ("Files staged successfully", [.git "add" ("--" :: files)])

/-- Embedding of `git_reset` (server.py 208-213). -/
def git_reset (paths : Option (List String) := none) : String × List GitCall :=
  if listTruthy paths then
    ("Reset " ++ toString (paths.getD []).length ++ " files",
      [.indexReset paths])
  else
    ("All staged changes reset", [.indexReset none])

/-- Python `repr` of a string as used in the log and show headers: the value
wrapped in quote characters (repr escaping of special characters elided). -/
def pyReprStr (s : String) : String := "\x27" ++ s ++ "\x27"

/-- Python `str` of an `Optional[str]` interpolated into an f-string. -/
def pyStrOpt : Option String → String
  | none => "None"
  | some s => s

/-- Embedding of `git_log` (server.py 215-235): assemble the kwargs dict for
`repo.iter_commits` (each filter key present only when its argument is
truthy) and render one text block per commit. -/
def git_log (o : GitOracle) (max_count : Int := 10)
    (revision_range : Option String := none)
    (paths : Option (List String) := none)
    (start_timestamp : Option String := none)
    (end_timestamp : Option String := none) : List String × List GitCall :=
  let kwargs : LogKwargs :=
    { max_count := max_count
      since := if strTruthy start_timestamp then start_timestamp else none
      until' := if strTruthy end_timestamp then end_timestamp else none
      rev := if strTruthy revision_range then revision_range else none
      paths := if listTruthy paths then paths else none }
  let commits := o.iterCommits kwargs
  (commits.map (fun commit =>
      "Commit: " ++ pyReprStr commit.hexsha ++ "\n"
        ++ "Author: " ++ commit.author ++ "\n"
        ++ "Date: " ++ commit.authored_datetime ++ "\n"
        ++ "Message: " ++ pyReprStr commit.message ++ "\n"),
    [.iterCommits kwargs])

/-- Embedding of `git_create_branch` (server.py 237-244): the base is the
named reference when `base_branch` is truthy (lookup failure raises),
otherwise the active branch. -/
def git_create_branch (o : GitOracle) (branch_name : String)
    (base_branch : Option String := none) :
    Except GitError String × List GitCall :=
  let base : Except GitError String :=
    if strTruthy base_branch then
      match o.references (base_branch.getD "") with
      | some ref => .ok ref
      | none => .error (.refNotFound (base_branch.getD ""))
    else .ok o.activeBranch
  match base with
  | .error e => (.error e, [])
  | .ok b =>
    (.ok ("Created branch " ++ pyReprStr branch_name ++ " from "
      ++ pyReprStr b), [.createHead branch_name b])

/-- Embedding of `git_checkout` (server.py 246-253): reject `-`-prefixed
branch names up front, then validate against the ref namespace with
`rev_parse`, then run the checkout. -/
def git_checkout (o : GitOracle) (branch_name : String) :
    Except GitError String × List GitCall :=
  if startsWithDash branch_name then
    (.error (.badName ("Invalid branch name: \x27" ++ branch_name
      ++ "\x27 - cannot start with \x27-\x27")), [])
  else if !o.revParseOk branch_name then
    (.error (.badName branch_name), [.revParse branch_name])
  else
    (.ok ("Switched to branch " ++ pyReprStr branch_name),
      [.revParse branch_name, .git "checkout" [branch_name]])

/-- Embedding of `git_show` (server.py 257-278): render the commit header,
then diff the first parent against the commit, or the commit against
`git.NULL_TREE` when it has no parents, and append each patch. -/
def git_show (o : GitOracle) (revision : String) :
    Except GitError String × List GitCall :=
  match o.commitOf revision with
  | none => (.error (.badName revision), [.commitLookup revision])
  | some commit =>
    let header :=
      "Commit: " ++ pyReprStr commit.hexsha ++ "\n"
        ++ "Author: " ++ commit.author ++ "\n"
        ++ "Date: " ++ commit.authored_datetime_repr ++ "\n"
        ++ "Message: " ++ pyReprStr commit.message ++ "\n"
    let spec : DiffSpec :=
      match commit.parents with
      | parent :: _ => .parentAgainstCommit parent commit.hexsha
      | [] => .commitAgainstNullTree commit.hexsha
    let body := (o.diffEntries spec).foldl (fun acc d =>
      acc ++ "\n--- " ++ pyStrOpt d.a_path ++ "\n+++ " ++ pyStrOpt d.b_path
        ++ "\n" ++ (match d.diff with | none => "" | some t => t)) ""
    (.ok (header ++ body), [.commitLookup revision, .diffCommits spec])

/-- Embedding of `git_grep` (server.py 280-299): optional `-i` and `-n`, the
pattern always behind `-e`, optional revision, then `--` and the paths. -/
def git_grep (o : GitOracle) (pattern : String)
    (revision : Option String := none) (paths : Option (List String) := none)
    (ignore_case : Bool := false) (line_numbers : Bool := true) :
    String × List GitCall :=
  let args : List String := []
  let args := if ignore_case then args ++ ["-i"] else args
  let args := if line_numbers then args ++ ["-n"] else args
  let args := args ++ ["-e", pattern]
  let args := if strTruthy revision then args ++ [revision.getD ""] else args
  let args := args ++ ["--"]
  let args := if listTruthy paths then args ++ paths.getD [] else args
  (o.gitOut "grep" args, [.git "grep" args])

/-- Embedding of `git_branch` (server.py 322-348): build the optional
`--contains`/`--no-contains` argument tuples and the scope flag; an
unrecognised `branch_type` returns a descriptive string without invoking
the tool; `none` entries are dropped from the final argument list (GitPython
auto-deletes `None` arguments). -/
def git_branch (o : GitOracle) (branch_type : String)
    (contains : Option String := none)
    (not_contains : Option String := none) : String × List GitCall :=
  let contains_sha : List (Option String) :=
    match contains with
    | none => [none]
    | some c => [some "--contains", some c]
  let not_contains_sha : List (Option String) :=
    match not_contains with
    | none => [none]
    | some c => [some "--no-contains", some c]
  let b_type : Option (Option String) :=
    match branch_type with
    | "local" => some none
    | "remote" => some (some "-r")
    | "all" => some (some "-a")
    | _ => none
  match b_type with
  | none => ("Invalid branch type: " ++ branch_type, [])
  | some bt =>
    let args := (bt :: contains_sha ++ not_contains_sha).filterMap id
    (o.gitOut "branch" args, [.git "branch" args])

/-- Embedding of the `by_roots` inner function of `list_repos`
(server.py 437-456): empty when the caller lacks the roots capability,
otherwise the advertised root paths that open as git repositories, kept in
their advertised order. -/
def by_roots (hasRootsCapability : Bool) (advertisedRoots : List String)
    (isGitRepo : String → Bool) : List String :=
  if !hasRootsCapability then []
  else advertisedRoots.foldl
    (fun repo_paths path =>
      if isGitRepo path then repo_paths ++ [path] else repo_paths) []

/-- Embedding of the `by_commandline` inner function of `list_repos`
(server.py 458-459). -/
def by_commandline (repository : Option String) : List String :=
  match repository with
  | some r => [r]
  | none => []

/-- Embedding of `list_repos` (server.py 436-463): session-advertised roots
first, the command-line repository last. -/
def list_repos (hasRootsCapability : Bool) (advertisedRoots : List String)
    (isGitRepo : String → Bool) (repository : Option String) : List String :=
  let cmd_repos := by_commandline repository
  let root_repos := by_roots hasRootsCapability advertisedRoots isGitRepo
  root_repos ++ cmd_repos

/-- One text segment of a tool response (`mcp.types.TextContent`). -/
structure TextContent where
  type : String
  text : String
deriving Repr, DecidableEq

/-- The untyped argument mapping of a tool request: a field is `none` when
the key is absent from the dict. -/
structure Arguments where
  repo_path : Option String := none
  target : Option String := none
  base : Option String := none
  merge_base : Option Bool := none
  context_lines : Option Int := none
  ignore_whitespace : Option Bool := none
  paths : Option (List String) := none
  message : Option String := none
  author_name : Option String := none
  author_email : Option String := none
  files : Option (List String) := none
  max_count : Option Int := none
  revision_range : Option String := none
  start_timestamp : Option String := none
  end_timestamp : Option String := none
  branch_name : Option String := none
  base_branch : Option String := none
  revision : Option String := none
  pattern : Option String := none
  ignore_case : Option Bool := none
  line_numbers : Option Bool := none
  branch_type : Option String := none
  contains : Option String := none
  not_contains : Option String := none

/-- Errors a dispatched request can end in: a missing required dict key
(`KeyError`), a path-guard `ValueError`, GitPython's invalid-repository
error from `git.Repo(path)`, the unknown-tool `ValueError`, or an exception
from the operation itself. -/
inductive ServerError where
  | keyError (key : String)
  | pathGuard (e : PathGuardError)
  | invalidGitRepository (path : String)
  | unknownTool (name : String)
  | gitError (e : GitError)
deriving Repr, DecidableEq

/-- Externally visible effects of one dispatched request: constructing the
repository handle, and each interaction with the underlying tool. -/
inductive Effect where
  | openRepo (path : String)
  | gitCall (c : GitCall)
deriving Repr, DecidableEq

/-- Lift an operation's call trace into the request effect trace. -/
def gitEffects (calls : List GitCall) : List Effect := calls.map .gitCall

/-- Embedding of the `call_tool` handler (server.py 465-614): extract
`repo_path` (a missing key raises), validate it against the configured
repository, construct the repository handle, then dispatch on the tool name
to the matching operation and wrap its result in a labeled text segment. -/
def call_tool (fs : FS) (o : GitOracle) (repository : Option String)
    (name : String) (arguments : Arguments) :
    Except ServerError (List TextContent) × List Effect :=
  match arguments.repo_path with
  | none => (.error (.keyError "repo_path"), [])
  | some repo_path =>
    match validate_repo_path fs repo_path repository with
    | .error e => (.error (.pathGuard e), [])
    | .ok () =>
      if !o.isGitRepo repo_path then
        (.error (.invalidGitRepository repo_path), [])
      else
        let opened : List Effect := [.openRepo repo_path]
        match name with
        | "git_status" =>
          let (status, calls) := git_status o arguments.paths
          (.ok [⟨"text", "Repository status:\n" ++ status⟩],
            opened ++ gitEffects calls)
        | "git_diff_unstaged" =>
          let (diff, calls) := git_diff_unstaged o
            (arguments.context_lines.getD DEFAULT_CONTEXT_LINES)
            (arguments.ignore_whitespace.getD false) arguments.paths
          (.ok [⟨"text", "Unstaged changes:\n" ++ diff⟩],
            opened ++ gitEffects calls)
        | "git_diff_staged" =>
          let (diff, calls) := git_diff_staged o
            (arguments.context_lines.getD DEFAULT_CONTEXT_LINES)
            (arguments.ignore_whitespace.getD false) arguments.paths
          (.ok [⟨"text", "Staged changes:\n" ++ diff⟩],
            opened ++ gitEffects calls)
        | "git_diff" =>
          match arguments.target with
          | none => (.error (.keyError "target"), opened)
          | some target =>
            let (res, calls) := git_diff o target arguments.base
              (arguments.merge_base.getD false)
              (arguments.context_lines.getD DEFAULT_CONTEXT_LINES)
              (arguments.ignore_whitespace.getD false) arguments.paths
            match res with
            | .error e => (.error (.gitError e), opened ++ gitEffects calls)
            | .ok diff =>
              (.ok [⟨"text", "Diff with " ++ target ++ ":\n" ++ diff⟩],
                opened ++ gitEffects calls)
        | "git_commit" =>
          match arguments.message with
          | none => (.error (.keyError "message"), opened)
          | some message =>
            let (result, calls) := git_commit o message
              arguments.author_name arguments.author_email
            (.ok [⟨"text", result⟩], opened ++ gitEffects calls)
        | "git_add" =>
          match arguments.files with
          | none => (.error (.keyError "files"), opened)
          | some files =>
            let (result, calls) := git_add files
            (.ok [⟨"text", result⟩], opened ++ gitEffects calls)
        | "git_reset" =>
          let (result, calls) := git_reset arguments.paths
          (.ok [⟨"text", result⟩], opened ++ gitEffects calls)
        | "git_log" =>
          let (log, calls) := git_log o (arguments.max_count.getD 10)
            arguments.revision_range arguments.paths
            arguments.start_timestamp arguments.end_timestamp
          (.ok [⟨"text", "Commit history:\n" ++ String.intercalate "\n" log⟩],
            opened ++ gitEffects calls)
        | "git_create_branch" =>
          match arguments.branch_name with
          | none => (.error (.keyError "branch_name"), opened)
          | some branch_name =>
            let (res, calls) := git_create_branch o branch_name
              arguments.base_branch
            match res with
            | .error e => (.error (.gitError e), opened ++ gitEffects calls)
            | .ok result => (.ok [⟨"text", result⟩], opened ++ gitEffects calls)
        | "git_checkout" =>
          match arguments.branch_name with
          | none => (.error (.keyError "branch_name"), opened)
          | some branch_name =>
            let (res, calls) := git_checkout o branch_name
            match res with
            | .error e => (.error (.gitError e), opened ++ gitEffects calls)
            | .ok result => (.ok [⟨"text", result⟩], opened ++ gitEffects calls)
        | "git_show" =>
          match arguments.revision with
          | none => (.error (.keyError "revision"), opened)
          | some revision =>
            let (res, calls) := git_show o revision
            match res with
            | .error e => (.error (.gitError e), opened ++ gitEffects calls)
            | .ok result => (.ok [⟨"text", result⟩], opened ++ gitEffects calls)
        | "git_grep" =>
          match arguments.pattern with
          | none => (.error (.keyError "pattern"), opened)
          | some pattern =>
            let (result, calls) := git_grep o pattern arguments.revision
              arguments.paths (arguments.ignore_case.getD false)
              (arguments.line_numbers.getD true)
            (.ok [⟨"text", result⟩], opened ++ gitEffects calls)
        | "git_branch" =>
          let (result, calls) := git_branch o
            (arguments.branch_type.getD "local")
            arguments.contains arguments.not_contains
          (.ok [⟨"text", result⟩], opened ++ gitEffects calls)
        | _ => (.error (.unknownTool name), opened)

/-- Example root commit (no parents) used by witnesses. -/
def rootCommitEx : CommitInfo :=
  { hexsha := "aaa111", author := "A", authored_datetime := "2024-01-01"
    authored_datetime_repr := "2024-01-01r", message := "init", parents := [] }

/-- Example non-root commit used by witnesses. -/
def childCommitEx : CommitInfo :=
  { hexsha := "bbb222", author := "A", authored_datetime := "2024-01-02"
    authored_datetime_repr := "2024-01-02r", message := "next"
    parents := ["aaa111"] }

/-- Example GitPython oracle used by witnesses: every path is a repository,
every ref except "nonexistent" resolves, and the revisions "root" and
"child" resolve to the two example commits. -/
def oEx : GitOracle where
  isGitRepo _ := true
  revParseOk r := !(r == "nonexistent")
  gitOut _ _ := "out"
  commitHexsha _ _ := "abc123"
  commitOf r :=
    if r == "root" then some rootCommitEx
    else if r == "child" then some childCommitEx
    else none
  diffEntries _ := []
  iterCommits _ := []
  references _ := none
  activeBranch := "main"

/-- The tail of a constructed diff argument list contributed by an optional
path filter: the `--` separator followed by the paths when the filter is
truthy, nothing otherwise. -/
def pathsSuffix (paths : Option (List String)) : List String :=
  if listTruthy paths then ["--"] ++ paths.getD [] else []

/-- C1: PathGuard validation is correct: with no allowed root configured it
always succeeds; with an allowed root configured and both paths resolvable it
succeeds exactly when the allowed root's canonical segments are a prefix of
the candidate's canonical segments (equality or segment-boundary descent),
failing with the outside-allowed-root error otherwise; an unresolvable path
fails with the invalid-path error. -/
theorem validate_repo_path_spec (fs : FS) (p a : String) :
    (validate_repo_path fs p none = .ok ()) ∧
    (∀ rp ra, fs.resolve p = some rp → fs.resolve a = some ra →
      ((validate_repo_path fs p (some a) = .ok ()) ↔ ra.isPrefixOf rp = true) ∧
      (ra.isPrefixOf rp = false →
        validate_repo_path fs p (some a)
          = .error (.pathOutsideAllowedRoot p a))) ∧
    (fs.resolve p = none →
      validate_repo_path fs p (some a) = .error (.invalidPath p)) ∧
    (fs.resolve a = none →
      validate_repo_path fs p (some a) = .error (.invalidPath p)) := by
  refine ⟨rfl, ?_, ?_, ?_⟩
  · intro rp ra hrp hra
    constructor
    · cases h : ra.isPrefixOf rp <;>
        simp [validate_repo_path, hrp, hra, relativeToOk, h]
    · intro h
      simp [validate_repo_path, hrp, hra, relativeToOk, h]
  · intro h
    cases ha : fs.resolve a <;> simp [validate_repo_path, h, ha]
  · intro h
    cases hp : fs.resolve p <;> simp [validate_repo_path, h, hp]

/-- Witness for C1 at concrete inputs: `/allowed-other` is rejected against
allowed root `/allowed` (sibling, not descendant), `/allowed/sub` is
accepted, and an unresolvable path is an invalid-path failure. -/
theorem validate_repo_path_spec_witness :
    (validate_repo_path fsEx "/allowed-other" none = .ok ()) ∧
    (fsEx.resolve "/allowed-other" = some ["allowed-other"] ∧
      fsEx.resolve "/allowed" = some ["allowed"] ∧
      List.isPrefixOf ["allowed"] ["allowed-other"] = false ∧
      validate_repo_path fsEx "/allowed-other" (some "/allowed")
        = .error (.pathOutsideAllowedRoot "/allowed-other" "/allowed")) ∧
    (fsEx.resolve "/allowed/sub" = some ["allowed", "sub"] ∧
      validate_repo_path fsEx "/allowed/sub" (some "/allowed") = .ok ()) ∧
    (fsEx.resolve "/nowhere" = none ∧
      validate_repo_path fsEx "/nowhere" (some "/allowed")
        = .error (.invalidPath "/nowhere")) := by
  refine ⟨(validate_repo_path_spec fsEx "/allowed-other" "/allowed").1,
    ⟨by decide, by decide, by decide, ?_⟩, ⟨by decide, ?_⟩, ⟨by decide, ?_⟩⟩
  · exact ((validate_repo_path_spec fsEx "/allowed-other" "/allowed").2.1
      ["allowed-other"] ["allowed"] (by decide) (by decide)).2 (by decide)
  · exact ((validate_repo_path_spec fsEx "/allowed/sub" "/allowed").2.1
      ["allowed", "sub"] ["allowed"] (by decide) (by decide)).1.mpr (by decide)
  · exact (validate_repo_path_spec fsEx "/nowhere" "/allowed").2.2.1 (by decide)

/-- C2: whenever the extracted repo_path fails PathGuard validation, the
dispatched request fails with exactly the guard's error and its effect trace
is empty: no repository handle is constructed and no command is executed. -/
theorem call_tool_guard_first (fs : FS) (o : GitOracle)
    (repository : Option String) (name : String) (arguments : Arguments)
    (rp : String) (e : PathGuardError)
    (hrp : arguments.repo_path = some rp)
    (hv : validate_repo_path fs rp repository = .error e) :
    call_tool fs o repository name arguments = (.error (.pathGuard e), []) := by
  simp [call_tool, hrp, hv]

/-- Witness for C2: allowed root `/repos/proj`, requested repo_path `/etc`,
operation `git_status` - the request fails with the outside-allowed-root
error and the effect trace is empty. -/
theorem call_tool_guard_first_witness :
    ({ repo_path := some "/etc" } : Arguments).repo_path = some "/etc" ∧
    validate_repo_path fsEx "/etc" (some "/repos/proj")
      = .error (.pathOutsideAllowedRoot "/etc" "/repos/proj") ∧
    call_tool fsEx oEx (some "/repos/proj") "git_status"
        { repo_path := some "/etc" }
      = (.error (.pathGuard (.pathOutsideAllowedRoot "/etc" "/repos/proj")),
          []) :=
  ⟨rfl, rfl,
    call_tool_guard_first fsEx oEx (some "/repos/proj") "git_status"
      { repo_path := some "/etc" } "/etc"
      (.pathOutsideAllowedRoot "/etc" "/repos/proj") rfl rfl⟩

/-- C3: a diff target, diff base or checkout target beginning with `-` is
rejected with the corresponding invalid-argument failure and an empty call
trace: no ref resolution and no external-tool invocation takes place. -/
theorem dash_prefixed_identifiers_rejected (o : GitOracle) (target : String)
    (base : Option String) (merge_base : Bool) (context_lines : Int)
    (ignore_whitespace : Bool) (paths : Option (List String))
    (b branch_name : String) :
    (startsWithDash target = true →
      git_diff o target base merge_base context_lines ignore_whitespace paths
        = (.error (.badName ("Invalid target: \x27" ++ target
            ++ "\x27 - cannot start with \x27-\x27")), [])) ∧
    (startsWithDash target = false → startsWithDash b = true →
      git_diff o target (some b) merge_base context_lines ignore_whitespace
          paths
        = (.error (.badName ("Invalid base: \x27" ++ b
            ++ "\x27 - cannot start with \x27-\x27")), [])) ∧
    (startsWithDash branch_name = true →
      git_checkout o branch_name
        = (.error (.badName ("Invalid branch name: \x27" ++ branch_name
            ++ "\x27 - cannot start with \x27-\x27")), [])) := by
  refine ⟨?_, ?_, ?_⟩
  · intro h
    simp [git_diff, h]
  · intro ht hb
    have hbne : (b == "") = false := by
      cases hbe : b == ""
      · rfl
      · have : b = "" := by simpa using hbe
        rw [this] at hb
        exact absurd hb (by decide)
    simp [git_diff, ht, hb, strTruthy, hbne]
  · intro h
    simp [git_checkout, h]

/-- Witness for C3 at the concrete inputs target `-x`, base `-y` and
checkout target `-z`. -/
theorem dash_prefixed_identifiers_rejected_witness :
    (startsWithDash "-x" = true ∧
      git_diff oEx "-x" none false 3 false none
        = (.error (.badName
            "Invalid target: \x27-x\x27 - cannot start with \x27-\x27"),
            [])) ∧
    (startsWithDash "t" = false ∧ startsWithDash "-y" = true ∧
      git_diff oEx "t" (some "-y") false 3 false none
        = (.error (.badName
            "Invalid base: \x27-y\x27 - cannot start with \x27-\x27"), [])) ∧
    (startsWithDash "-z" = true ∧
      git_checkout oEx "-z"
        = (.error (.badName
            "Invalid branch name: \x27-z\x27 - cannot start with \x27-\x27"),
            [])) :=
  ⟨⟨by decide,
      (dash_prefixed_identifiers_rejected oEx "-x" none false 3 false none
        "-y" "-z").1 (by decide)⟩,
    ⟨by decide, by decide,
      (dash_prefixed_identifiers_rejected oEx "t" none false 3 false none
        "-y" "-z").2.1 (by decide) (by decide)⟩,
    ⟨by decide,
      (dash_prefixed_identifiers_rejected oEx "t" none false 3 false none
        "-y" "-z").2.2 (by decide)⟩⟩

/-- C4: the diff argument list with base B and target T selects `B...T` in
merge-base mode, the two refs B then T otherwise, and just T when no base
is given; the context-line option always comes first and the optional path
filter follows a `--` separator. -/
theorem git_diff_revision_selection (o : GitOracle) (T B : String) (mb : Bool)
    (n : Int) (w : Bool) (paths : Option (List String))
    (hT : startsWithDash T = false) (hB : startsWithDash B = false)
    (hBne : B ≠ "") (hTok : o.revParseOk T = true)
    (hBok : o.revParseOk B = true) :
    ((git_diff o T (some B) true n w paths).2
      = [.revParse T, .revParse B,
          .git "diff" (["--unified=" ++ toString n]
            ++ (if w then ["-w"] else []) ++ [B ++ "..." ++ T]
            ++ pathsSuffix paths)]) ∧
    ((git_diff o T (some B) false n w paths).2
      = [.revParse T, .revParse B,
          .git "diff" (["--unified=" ++ toString n]
            ++ (if w then ["-w"] else []) ++ [B, T]
            ++ pathsSuffix paths)]) ∧
    ((git_diff o T none mb n w paths).2
      = [.revParse T,
          .git "diff" (["--unified=" ++ toString n]
            ++ (if w then ["-w"] else []) ++ [T]
            ++ pathsSuffix paths)]) := by
  have hbne : (B == "") = false := by simpa using hBne
  refine ⟨?_, ?_, ?_⟩ <;>
    cases w <;> cases hlp : listTruthy paths <;>
      simp [git_diff, hT, hB, hTok, hBok, strTruthy, hbne, pathsSuffix, hlp]

/-- Witness for C4 at target `feature`, base `main`, 5 context lines and a
path filter. -/
theorem git_diff_revision_selection_witness :
    (startsWithDash "feature" = false ∧ startsWithDash "main" = false ∧
      "main" ≠ "" ∧ oEx.revParseOk "feature" = true ∧
      oEx.revParseOk "main" = true) ∧
    (git_diff oEx "feature" (some "main") true 5 false
        (some ["a.txt"])).2
      = [.revParse "feature", .revParse "main",
          .git "diff" ["--unified=5", "main...feature", "--", "a.txt"]] ∧
    (git_diff oEx "feature" (some "main") false 5 false
        (some ["a.txt"])).2
      = [.revParse "feature", .revParse "main",
          .git "diff" ["--unified=5", "main", "feature", "--", "a.txt"]] ∧
    (git_diff oEx "feature" none false 5 false (some ["a.txt"])).2
      = [.revParse "feature",
          .git "diff" ["--unified=5", "feature", "--", "a.txt"]] := by
  have h := git_diff_revision_selection oEx "feature" "main" false 5 false
    (some ["a.txt"]) (by decide) (by decide) (by decide) (by decide)
    (by decide)
  exact ⟨⟨by decide, by decide, by decide, by decide, by decide⟩,
    by simpa [pathsSuffix, listTruthy] using h.1,
    by simpa [pathsSuffix, listTruthy] using h.2.1,
    by simpa [pathsSuffix, listTruthy] using h.2.2⟩

/-- C5: the add operation passes the exact singleton `["."]` bare, and every
other file list entirely after the `--` separator, so entries beginning with
`-` stay literal paths. -/
theorem git_add_separator (files : List String) :
    ((git_add ["."]).2 = [.git "add" ["."]]) ∧
    (files ≠ ["."] → (git_add files).2 = [.git "add" ("--" :: files)]) := by
  constructor
  · rfl
  · intro h
    have h' : (files == ["."]) = false := by simpa using h
    simp [git_add, h']

/-- Witness for C5 at the file list `["a.txt", "-x"]`. -/
theorem git_add_separator_witness :
    (["a.txt", "-x"] ≠ ["."]) ∧
    (git_add ["a.txt", "-x"]).2 = [.git "add" ["--", "a.txt", "-x"]] :=
  ⟨by decide, (git_add_separator ["a.txt", "-x"]).2 (by decide)⟩

/-- C6: a branch-list request whose branch scope is none of `local`,
`remote` or `all` returns the descriptive text rather than raising, and
invokes no underlying-tool command. -/
theorem git_branch_invalid_type (o : GitOracle) (branch_type : String)
    (contains not_contains : Option String)
    (h1 : branch_type ≠ "local") (h2 : branch_type ≠ "remote")
    (h3 : branch_type ≠ "all") :
    git_branch o branch_type contains not_contains
      = ("Invalid branch type: " ++ branch_type, []) := by
  simp [git_branch, h1, h2, h3]

/-- Witness for C6 at the concrete scope value `bogus`. -/
theorem git_branch_invalid_type_witness :
    ("bogus" ≠ "local" ∧ "bogus" ≠ "remote" ∧ "bogus" ≠ "all") ∧
    git_branch oEx "bogus" none none = ("Invalid branch type: bogus", []) :=
  ⟨⟨by decide, by decide, by decide⟩,
    git_branch_invalid_type oEx "bogus" none none (by decide) (by decide)
      (by decide)⟩

/-- C7: the commit operation hands GitPython a custom author only when both
author fields are given (and non-empty); with exactly one of the two given
it commits with `author = None`, so the tool's configured identity is
used. -/
theorem git_commit_author_pairing (o : GitOracle)
    (message name email : String) :
    ((git_commit o message (some name) none).2
      = [.indexCommit message none]) ∧
    ((git_commit o message none (some email)).2
      = [.indexCommit message none]) ∧
    (name ≠ "" → email ≠ "" →
      (git_commit o message (some name) (some email)).2
        = [.indexCommit message (some ⟨name, email⟩)]) := by
  refine ⟨by simp [git_commit, strTruthy], by simp [git_commit, strTruthy],
    ?_⟩
  intro hn he
  have hn' : (name == "") = false := by simpa using hn
  have he' : (email == "") = false := by simpa using he
  simp [git_commit, strTruthy, hn', he']

/-- Witness for C7 at a name-only commit, an email-only commit and a full
author pair. -/
theorem git_commit_author_pairing_witness :
    ((git_commit oEx "m" (some "Alice") none).2
      = [.indexCommit "m" none]) ∧
    ((git_commit oEx "m" none (some "a@b.c")).2
      = [.indexCommit "m" none]) ∧
    ("Alice" ≠ "" ∧ "a@b.c" ≠ "" ∧
      (git_commit oEx "m" (some "Alice") (some "a@b.c")).2
        = [.indexCommit "m" (some ⟨"Alice", "a@b.c"⟩)]) :=
  ⟨(git_commit_author_pairing oEx "m" "Alice" "a@b.c").1,
    (git_commit_author_pairing oEx "m" "Alice" "a@b.c").2.1,
    ⟨by decide, by decide,
      (git_commit_author_pairing oEx "m" "Alice" "a@b.c").2.2 (by decide)
        (by decide)⟩⟩

/-- C8: the show operation diffs the commit against the empty tree when the
resolved commit has no parents, and diffs the first parent against the
commit otherwise. -/
theorem git_show_root_commit_diff (o : GitOracle) (revision : String)
    (c : CommitInfo) (hc : o.commitOf revision = some c) :
    (c.parents = [] →
      (git_show o revision).2
        = [.commitLookup revision,
            .diffCommits (.commitAgainstNullTree c.hexsha)]) ∧
    (∀ p rest, c.parents = p :: rest →
      (git_show o revision).2
        = [.commitLookup revision,
            .diffCommits (.parentAgainstCommit p c.hexsha)]) := by
  constructor
  · intro h
    simp [git_show, hc, h]
  · intro p rest h
    simp [git_show, hc, h]

/-- Witness for C8 at the example root commit (no parents) and its child. -/
theorem git_show_root_commit_diff_witness :
    (oEx.commitOf "root" = some rootCommitEx ∧ rootCommitEx.parents = [] ∧
      (git_show oEx "root").2
        = [.commitLookup "root",
            .diffCommits (.commitAgainstNullTree "aaa111")]) ∧
    (oEx.commitOf "child" = some childCommitEx ∧
      childCommitEx.parents = ["aaa111"] ∧
      (git_show oEx "child").2
        = [.commitLookup "child",
            .diffCommits (.parentAgainstCommit "aaa111" "bbb222")]) :=
  ⟨⟨rfl, rfl, (git_show_root_commit_diff oEx "root" rootCommitEx rfl).1 rfl⟩,
    ⟨rfl, rfl, (git_show_root_commit_diff oEx "child" childCommitEx rfl).2
      "aaa111" [] rfl⟩⟩

/-- The loop of `by_roots` is exactly an order-preserving filter of the
advertised roots. -/
theorem by_roots_loop_eq_filter (isGitRepo : String → Bool)
    (l acc : List String) :
    l.foldl (fun repo_paths path =>
      if isGitRepo path then repo_paths ++ [path] else repo_paths) acc
      = acc ++ l.filter isGitRepo := by
  induction l generalizing acc with
  | nil => simp
  | cons x xs ih =>
    cases h : isGitRepo x <;> simp [List.foldl_cons, h, ih, List.filter_cons]

/-- C9: the repository resolver returns exactly the session-advertised roots
that verify as git repositories, in order (empty without the roots
capability), followed by the statically configured root; the static root is
last and duplicates are kept. -/
theorem list_repos_order_and_content (cap : Bool) (roots : List String)
    (isGitRepo : String → Bool) (repository : Option String) :
    (list_repos cap roots isGitRepo repository
      = (if cap then roots.filter isGitRepo else []) ++ repository.toList) ∧
    (∀ r, repository = some r →
      (list_repos cap roots isGitRepo repository).getLast? = some r) ∧
    (∀ r, repository = some r → cap = true →
      (list_repos cap roots isGitRepo repository).count r
        = (roots.filter isGitRepo).count r + 1) := by
  have hmain : list_repos cap roots isGitRepo repository
      = (if cap then roots.filter isGitRepo else []) ++ repository.toList := by
    cases repository <;> cases cap <;>
      simp [list_repos, by_roots, by_commandline, by_roots_loop_eq_filter]
  refine ⟨hmain, ?_, ?_⟩
  · intro r hr
    subst hr
    rw [hmain]
    simp
  · intro r hr hcap
    subst hr
    subst hcap
    rw [hmain]
    simp [List.count_append]

/-- Witness for C9: with the roots capability, advertised roots
`[/a, /b, /a]` of which only `/a` verifies, and static root `/a`, the
result ends in the static root and keeps all three duplicates of `/a`. -/
theorem list_repos_order_and_content_witness :
    ((some "/a" : Option String) = some "/a" ∧ (true : Bool) = true) ∧
    (list_repos true ["/a", "/b", "/a"] (fun s => s == "/a")
      (some "/a")).getLast? = some "/a" ∧
    (list_repos true ["/a", "/b", "/a"] (fun s => s == "/a")
      (some "/a")).count "/a"
      = ((["/a", "/b", "/a"].filter (fun s => s == "/a")).count "/a") + 1 :=
  ⟨⟨rfl, rfl⟩,
    (list_repos_order_and_content true ["/a", "/b", "/a"]
      (fun s => s == "/a") (some "/a")).2.1 "/a" rfl,
    (list_repos_order_and_content true ["/a", "/b", "/a"]
      (fun s => s == "/a") (some "/a")).2.2 "/a" rfl rfl⟩

/-- C10: when both author keys are present but at least one value is the
empty string, the truthiness test fails and the commit is made with
`author = None`, exactly as if the fields had been omitted. -/
theorem git_commit_empty_author_fields (o : GitOracle)
    (message name email : String) (h : name = "" ∨ email = "") :
    (git_commit o message (some name) (some email)).2
      = [.indexCommit message none] := by
  rcases h with h | h <;> subst h <;> simp [git_commit, strTruthy]

/-- Witness for C10 at an empty author name with a non-empty email. -/
theorem git_commit_empty_author_fields_witness :
    ("" = "" ∨ "a@b.c" = "") ∧
    (git_commit oEx "msg" (some "") (some "a@b.c")).2
      = [.indexCommit "msg" none] :=
  ⟨Or.inl rfl,
    git_commit_empty_author_fields oEx "msg" "" "a@b.c" (Or.inl rfl)⟩

end McpServerGit
